import Mathlib

/-
Shallow embedding of `revlimiter.py` (class Throttler): a token-bucket
request throttler keyed by a two-level dict. Python dicts are modelled as
association lists without duplicate keys; Python numbers (time stamps,
token counts, rates) are modelled as rationals.
-/

namespace Revlimiter

/-- The Token Bucket algorithm parameters held by a `Throttler`
(`_fill_rate`, `_bucket_max`, `_bucket_start` in the source).
In the source constructor, `bucket_start` is always set to `bucket_max`. -/
structure Config where
  fill_rate : ℚ
  bucket_max : ℚ
  bucket_start : ℚ
deriving Repr, DecidableEq

/-- A bucket item: the dict `{'last_access': ..., 'num_tokens': ...}`. -/
structure Item where
  last_access : ℚ
  num_tokens : ℚ
deriving Repr, DecidableEq

/-- Inner dict: requester key -> item (as stored under one outer key). -/
abbrev Bucket := List (String × Item)

/-- Outer dict `_resource_buckets`: outer key -> inner dict. -/
abbrev Store := List (String × Bucket)

/-- Dict lookup (`d[k]` with presence as `Option`). -/
def alookup (k : String) : List (String × α) → Option α
  | [] => none
  | (k', v) :: rest => if k' = k then some v else alookup k rest

/-- Dict assignment `d[k] = v`: overwrite in place if present, append if absent. -/
def aset (k : String) (v : α) : List (String × α) → List (String × α)
  | [] => [(k, v)]
  | (k', v') :: rest => if k' = k then (k, v) :: rest else (k', v') :: aset k v rest

/-- The freshly initialized item of `_get_item`:
`{'last_access': now, 'num_tokens': self._bucket_start}`. -/
def newItem (cfg : Config) (now : ℚ) : Item :=
  { last_access := now, num_tokens := cfg.bucket_start }

/-- `Throttler._get_item(resource_id, requester_id, now)`: get-or-create the
item for the key pair, returning the item together with the updated store. -/
def getItem (cfg : Config) (store : Store) (resource_id requester_id : String)
    (now : ℚ) : Item × Store :=
  let bucket_collection := (alookup resource_id store).getD []
  match alookup requester_id bucket_collection with
  | some item => (item, aset resource_id bucket_collection store)
  | none =>
      let item := newItem cfg now
      (item, aset resource_id (aset requester_id item bucket_collection) store)

/-- `Throttler._update_item(item, now)`: refill tokens for elapsed time,
clamping the delta at zero from below and the total at `bucket_max` above,
then set the last access time to `now`. -/
def updateItem (cfg : Config) (it : Item) (now : ℚ) : Item :=
  let delta := max 0 (cfg.fill_rate * (now - it.last_access))
  { num_tokens := min cfg.bucket_max (it.num_tokens + delta),
    last_access := now }

/-- The consume step of `Throttler._consume_token` after the item is
fetched: update (refill) the item, then try to remove one token. -/
def consumeItem (cfg : Config) (it : Item) (now : ℚ) : Bool × Item :=
  let it1 := updateItem cfg it now
  let newVal := it1.num_tokens - 1
  if newVal < 0 then (false, it1)
  else (true, { it1 with num_tokens := newVal })

/-- Write an item back into the two-level store at a key pair (the effect of
the in-place dict mutations performed through the `item` alias). -/
def setItem (store : Store) (resource_id requester_id : String) (it : Item) :
    Store :=
  aset resource_id (aset requester_id it ((alookup resource_id store).getD []))
    store

/-- `Throttler._consume_token(resource_id, requester_id, now)`: get/create
the item, refill it, and attempt to consume a token, returning the decision
and the resulting store. -/
def consumeToken (cfg : Config) (store : Store)
    (resource_id requester_id : String) (now : ℚ) : Bool × Store :=
  let r := getItem cfg store resource_id requester_id now
  let c := consumeItem cfg r.1 now
  (c.1, setItem r.2 resource_id requester_id c.2)

/-- One inner dict of the mark-and-sweep body in `Throttler.periodic_clean`:
every item is refilled to `now` (mark), then every requester whose item has
`num_tokens >= bucket_max` is popped (sweep). -/
def sweepBucket (cfg : Config) (bucket : Bucket) (now : ℚ) : Bucket :=
  (bucket.map (fun p => (p.1, updateItem cfg p.2 now))).filter
    (fun p => decide (p.2.num_tokens < cfg.bucket_max))

/-- The full sweep pass of `Throttler.periodic_clean` over
`_resource_buckets`: each inner dict is swept; no outer key is removed. -/
def sweepPass (cfg : Config) (store : Store) (now : ℚ) : Store :=
  store.map (fun p => (p.1, sweepBucket cfg p.2 now))

/-- Error type for invalid construction parameters. `Throttler.__init__` has
no validation and no raise path, so this type has no inhabitants. -/
inductive ConfigError
deriving DecidableEq

/-- A `Throttler` instance: its config together with `_resource_buckets`. -/
structure Throttler where
  cfg : Config
  resource_buckets : Store
deriving Repr, DecidableEq

/-- `Throttler.__init__(fill_rate, bucket_max)`: takes exactly two
parameters, performs no validation, starts with an empty store, and sets
`_bucket_start = bucket_max`. -/
def mkThrottler (fill_rate bucket_max : ℚ) : Except ConfigError Throttler :=
  .ok { cfg := { fill_rate := fill_rate, bucket_max := bucket_max,
                 bucket_start := bucket_max },
        resource_buckets := [] }

/-- Errors raised while decoding an event in `Throttler.handle_request`:
`KeyError` on a missing field, or the `assert throttle_params is not None`
failure. -/
inductive DecodeError
  | missingRequesterId
  | missingResourceId
  | nullThrottleParams
deriving Repr, DecidableEq

/-- An inbound event: each field is absent or present; `throttle_params`,
when present, is either JSON `null` or an object (whose contents are
unused). -/
structure Event where
  requester_id : Option String
  resource_id : Option String
  throttle_params : Option (Option Unit)

/-- The response datadict built by `Throttler.handle_request`. -/
structure Response where
  allow_request : Bool
  denial_details : Option String
deriving Repr, DecidableEq

/-- `Throttler.handle_request`: decode the event (missing `requester_id` or
`resource_id` raises `KeyError`; an absent `throttle_params` defaults to the
empty object; an explicit `null` fails the assert), then call
`_consume_token(requester_id, resource_id, now)` — the source passes
`requester_id` as the first positional argument — and build the response. -/
def handle_request (cfg : Config) (store : Store) (ev : Event) (now : ℚ) :
    Except DecodeError Response × Store :=
  match ev.requester_id with
  | none => (.error .missingRequesterId, store)
  | some requester_id =>
    match ev.resource_id with
    | none => (.error .missingResourceId, store)
    | some resource_id =>
      match ev.throttle_params.getD (some ()) with
      | none => (.error .nullThrottleParams, store)
      | some _ =>
        let r := consumeToken cfg store requester_id resource_id now
        if r.1 then
          (.ok { allow_request := true, denial_details := none }, r.2)
        else
          (.ok { allow_request := false,
                 denial_details := some "No detail today!" }, r.2)

/-- The bucket-state bound from the data model: `0 ≤ tokens ≤ bucket_max`. -/
def itemInv (cfg : Config) (it : Item) : Prop :=
  0 ≤ it.num_tokens ∧ it.num_tokens ≤ cfg.bucket_max

instance (cfg : Config) (it : Item) : Decidable (itemInv cfg it) := by
  unfold itemInv; infer_instance

/-! ### Helper lemmas -/

/-- The refilled token count never exceeds `bucket_max`. -/
theorem updateItem_tokens_le (cfg : Config) (it : Item) (now : ℚ) :
    (updateItem cfg it now).num_tokens ≤ cfg.bucket_max :=
  min_le_left _ _

/-- Refill never removes tokens from a bucket that is within its bound. -/
theorem updateItem_tokens_mono (cfg : Config) (it : Item) (now : ℚ)
    (h : it.num_tokens ≤ cfg.bucket_max) :
    it.num_tokens ≤ (updateItem cfg it now).num_tokens :=
  le_min h (le_add_of_nonneg_right (le_max_left 0 _))

/-! ### Claim theorems -/

/-- C2 counterexample: `Throttler` construction with `bucket_max = 0`
(a non-positive value) succeeds instead of raising a configuration error,
and the resulting config has `bucket_start = 0` rather than taking
`bucket_start` as a third parameter. -/
theorem construction_with_nonpositive_max_succeeds :
    mkThrottler 1 0 =
      .ok { cfg := { fill_rate := 1, bucket_max := 0, bucket_start := 0 },
            resource_buckets := [] } := rfl

/-- C2 (amended): construction takes only the two parameters
`(fill_rate, bucket_max)`, performs no validation and always succeeds,
setting `bucket_start = bucket_max`; a newly created bucket holds exactly
`bucket_max` tokens. -/
theorem construction_total_and_start_eq_max (fr bm : ℚ) :
    mkThrottler fr bm =
      .ok { cfg := { fill_rate := fr, bucket_max := bm, bucket_start := bm },
            resource_buckets := [] } ∧
    ∀ now : ℚ,
      (newItem { fill_rate := fr, bucket_max := bm, bucket_start := bm }
          now).num_tokens = bm :=
  ⟨rfl, fun _ => rfl⟩

/-- C3: consume first refills the bucket to `now`; if the refilled token
count is at least 1 it returns `allowed = true` with tokens decreased by
exactly 1, and if the refilled count is in `[0, 1)` it returns
`allowed = false` with tokens left at the refilled value. -/
theorem consume_boundary_conservation (cfg : Config) (it : Item) (now : ℚ) :
    (1 ≤ (updateItem cfg it now).num_tokens →
      consumeItem cfg it now =
        (true, { updateItem cfg it now with
                 num_tokens := (updateItem cfg it now).num_tokens - 1 })) ∧
    (0 ≤ (updateItem cfg it now).num_tokens →
      (updateItem cfg it now).num_tokens < 1 →
      consumeItem cfg it now = (false, updateItem cfg it now)) := by
  constructor
  · intro h
    have hne : ¬ ((updateItem cfg it now).num_tokens - 1 < 0) := by
      rw [sub_neg]; exact not_lt.mpr h
    simp only [consumeItem]
    rw [if_neg hne]
  · intro _ h1
    have hlt : (updateItem cfg it now).num_tokens - 1 < 0 := by
      rw [sub_neg]; exact h1
    simp only [consumeItem]
    rw [if_pos hlt]

/-- C3 witness: a full bucket (2 tokens) at `now = 0` is accepted and left
with exactly 1 token. -/
theorem consume_boundary_conservation_witness :
    consumeItem ⟨1, 2, 2⟩ ⟨0, 2⟩ 0 =
      (true, { updateItem ⟨1, 2, 2⟩ ⟨0, 2⟩ 0 with
               num_tokens := (updateItem ⟨1, 2, 2⟩ ⟨0, 2⟩ 0).num_tokens - 1 }) :=
  (consume_boundary_conservation ⟨1, 2, 2⟩ ⟨0, 2⟩ 0).1
    (by simp [updateItem])

/-- C4: refill computes `delta = max 0 (fill_rate * (now - last_access))`,
sets tokens to `min bucket_max (tokens + delta)` and `last_access` to `now`;
and calling it with `now` earlier than the stored `last_access` never
decreases the token count of an in-bound bucket. -/
theorem refill_formula_and_clock_skew (cfg : Config) (it : Item) (now : ℚ) :
    updateItem cfg it now =
      { num_tokens := min cfg.bucket_max
          (it.num_tokens + max 0 (cfg.fill_rate * (now - it.last_access))),
        last_access := now } ∧
    (it.num_tokens ≤ cfg.bucket_max → now < it.last_access →
      it.num_tokens ≤ (updateItem cfg it now).num_tokens) :=
  ⟨rfl, fun hle _ => updateItem_tokens_mono cfg it now hle⟩

/-- C4 witness: refilling at `now = 3`, two seconds before the stored
`last_access = 5`, does not decrease a bucket holding 1 of 2 tokens. -/
theorem refill_formula_and_clock_skew_witness :
    (1 : ℚ) ≤ (updateItem ⟨1, 2, 2⟩ ⟨5, 1⟩ 3).num_tokens :=
  (refill_formula_and_clock_skew ⟨1, 2, 2⟩ ⟨5, 1⟩ 3).2 (by norm_num)
    (by norm_num)

/-- C8: refill is idempotent at a fixed timestamp: refilling twice with the
same `now` yields the same state as refilling once. -/
theorem refill_idempotent_at_fixed_now (cfg : Config) (it : Item) (now : ℚ) :
    updateItem cfg (updateItem cfg it now) now = updateItem cfg it now := by
  simp only [updateItem, Item.mk.injEq, true_and, and_true, sub_self,
    mul_zero, max_self, add_zero]
  rw [← min_assoc, min_self]

/-- C5: with `0 ≤ bucket_start ≤ bucket_max`, the bound
`0 ≤ tokens ≤ bucket_max` holds for a freshly created bucket and is
preserved by refill, by consume (on acceptance and rejection alike), and by
the reclaimer's mark-and-sweep pass over a bucket collection. -/
theorem token_bounds_invariant (cfg : Config) (now : ℚ)
    (h0 : 0 ≤ cfg.bucket_start) (h1 : cfg.bucket_start ≤ cfg.bucket_max) :
    itemInv cfg (newItem cfg now) ∧
    (∀ it, itemInv cfg it → itemInv cfg (updateItem cfg it now)) ∧
    (∀ it, itemInv cfg it → itemInv cfg (consumeItem cfg it now).2) ∧
    (∀ bucket : Bucket, (∀ p ∈ bucket, itemInv cfg p.2) →
      ∀ p ∈ sweepBucket cfg bucket now, itemInv cfg p.2) := by
  have hbm : (0 : ℚ) ≤ cfg.bucket_max := h0.trans h1
  have hupd : ∀ it, itemInv cfg it → itemInv cfg (updateItem cfg it now) := by
    intro it hit
    exact ⟨le_min hbm (add_nonneg hit.1 (le_max_left 0 _)),
      updateItem_tokens_le cfg it now⟩
  refine ⟨⟨h0, h1⟩, hupd, ?_, ?_⟩
  · intro it hit
    simp only [consumeItem]
    by_cases hc : (updateItem cfg it now).num_tokens - 1 < 0
    · rw [if_pos hc]
      exact hupd it hit
    · rw [if_neg hc]
      obtain ⟨_, hu1⟩ := hupd it hit
      have h2 := not_lt.mp hc
      refine ⟨?_, ?_⟩
      · show (0 : ℚ) ≤ (updateItem cfg it now).num_tokens - 1
        linarith
      · show (updateItem cfg it now).num_tokens - 1 ≤ cfg.bucket_max
        linarith
  · intro bucket hb p hp
    simp only [sweepBucket, List.mem_filter, List.mem_map] at hp
    obtain ⟨q, hmem, heq⟩ := hp.1
    subst heq
    exact hupd q.2 (hb q hmem)

/-- C5 witness: under config `(1, 2, 2)` a freshly created bucket at
`now = 0` satisfies the token bound. -/
theorem token_bounds_invariant_witness :
    itemInv ⟨1, 2, 2⟩ (newItem ⟨1, 2, 2⟩ 0) :=
  (token_bounds_invariant ⟨1, 2, 2⟩ 0 (by norm_num) (by norm_num)).1

/-- C9: an event missing `requester_id` or `resource_id`, or carrying
`throttle_params` explicitly `null`, makes `handle_request` return a decode
error and leave the store exactly as it was. -/
theorem malformed_request_rejected_before_core (cfg : Config) (store : Store)
    (ev : Event) (now : ℚ)
    (h : ev.requester_id = none ∨ ev.resource_id = none ∨
      ev.throttle_params = some none) :
    (∃ e, (handle_request cfg store ev now).1 = .error e) ∧
    (handle_request cfg store ev now).2 = store := by
  obtain ⟨rq, rs, tp⟩ := ev
  cases rq with
  | none => exact ⟨⟨.missingRequesterId, rfl⟩, rfl⟩
  | some r =>
    cases rs with
    | none => exact ⟨⟨.missingResourceId, rfl⟩, rfl⟩
    | some s =>
      have htp : tp = some none := by
        rcases h with h | h | h
        · exact absurd h (by simp)
        · exact absurd h (by simp)
        · exact h
      subst htp
      exact ⟨⟨.nullThrottleParams, rfl⟩, rfl⟩

/-- C9 witness: a request with `requester_id` absent is rejected with an
error and the empty store stays empty. -/
theorem malformed_request_rejected_before_core_witness :
    (∃ e, (handle_request ⟨1, 2, 2⟩ [] ⟨none, some "r", none⟩ 0).1 =
      .error e) ∧
    (handle_request ⟨1, 2, 2⟩ [] ⟨none, some "r", none⟩ 0).2 = [] :=
  malformed_request_rejected_before_core ⟨1, 2, 2⟩ [] ⟨none, some "r", none⟩ 0
    (Or.inl rfl)

/-- The sweep pass rewrites each inner dict in place, so lookups commute
with it. -/
theorem alookup_sweepPass (cfg : Config) (store : Store) (now : ℚ)
    (rid : String) :
    alookup rid (sweepPass cfg store now) =
      (alookup rid store).map fun b => sweepBucket cfg b now := by
  induction store with
  | nil => rfl
  | cons hd tl ih =>
    by_cases h : hd.1 = rid
    · simp [sweepPass, alookup, h]
    · simpa [sweepPass, alookup, h] using ih

/-- The sweep pass leaves the outer key list untouched. -/
theorem sweepPass_keys (cfg : Config) (store : Store) (now : ℚ) :
    (sweepPass cfg store now).map Prod.fst = store.map Prod.fst := by
  simp [sweepPass]

/-- Unfolding equation for the sweep of one inner dict. -/
theorem sweepBucket_cons (cfg : Config) (hd : String × Item) (tl : Bucket)
    (now : ℚ) :
    sweepBucket cfg (hd :: tl) now =
      if (updateItem cfg hd.2 now).num_tokens < cfg.bucket_max
      then (hd.1, updateItem cfg hd.2 now) :: sweepBucket cfg tl now
      else sweepBucket cfg tl now := by
  by_cases h : (updateItem cfg hd.2 now).num_tokens < cfg.bucket_max <;>
    simp [sweepBucket, List.filter_cons, h]

/-- A key absent from an inner dict is still absent after the sweep. -/
theorem alookup_sweepBucket_of_not_mem (cfg : Config) (bucket : Bucket)
    (now : ℚ) (qid : String) (h : qid ∉ bucket.map Prod.fst) :
    alookup qid (sweepBucket cfg bucket now) = none := by
  induction bucket with
  | nil => rfl
  | cons hd tl ih =>
    simp only [List.map_cons, List.mem_cons, not_or] at h
    rw [sweepBucket_cons]
    by_cases hc : (updateItem cfg hd.2 now).num_tokens < cfg.bucket_max
    · rw [if_pos hc]
      simp only [alookup]
      rw [if_neg fun he => h.1 he.symm]
      exact ih h.2
    · rw [if_neg hc]
      exact ih h.2

/-- Looking up a stored key after the sweep of its inner dict: the entry
survives with its refilled state exactly when the refilled token count is
below `bucket_max`. -/
theorem alookup_sweepBucket (cfg : Config) (bucket : Bucket) (now : ℚ)
    (qid : String) (it : Item) (hnd : (bucket.map Prod.fst).Nodup)
    (hfind : alookup qid bucket = some it) :
    alookup qid (sweepBucket cfg bucket now) =
      if (updateItem cfg it now).num_tokens < cfg.bucket_max
      then some (updateItem cfg it now) else none := by
  induction bucket with
  | nil => simp [alookup] at hfind
  | cons hd tl ih =>
    rw [List.map_cons, List.nodup_cons] at hnd
    rw [sweepBucket_cons]
    simp only [alookup] at hfind
    by_cases hk : hd.1 = qid
    · rw [if_pos hk] at hfind
      injection hfind with hit
      subst hit
      by_cases hc : (updateItem cfg hd.2 now).num_tokens < cfg.bucket_max
      · rw [if_pos hc, if_pos hc]
        simp [alookup, hk]
      · rw [if_neg hc, if_neg hc]
        exact alookup_sweepBucket_of_not_mem cfg tl now qid (hk ▸ hnd.1)
    · rw [if_neg hk] at hfind
      by_cases hc : (updateItem cfg hd.2 now).num_tokens < cfg.bucket_max
      · rw [if_pos hc]
        simp only [alookup]
        rw [if_neg hk]
        exact ih hnd.2 hfind
      · rw [if_neg hc]
        exact ih hnd.2 hfind

/-- C6: in a sweep pass at time `now`, each stored inner dict is swept in
place; a stored entry is removed exactly when its refilled token count
equals `bucket_max`, is retained with its refilled state when below, and —
under `fill_rate > 0` — is removed whenever it was untouched for at least
`(bucket_max - tokens) / fill_rate` seconds before the sweep. -/
theorem sweep_removal_iff_full (cfg : Config) (store : Store) (now : ℚ)
    (rid qid : String) (bucket : Bucket) (it : Item)
    (hrid : alookup rid store = some bucket)
    (hnd : (bucket.map Prod.fst).Nodup)
    (hqid : alookup qid bucket = some it) :
    alookup rid (sweepPass cfg store now) = some (sweepBucket cfg bucket now) ∧
    (alookup qid (sweepBucket cfg bucket now) = none ↔
      (updateItem cfg it now).num_tokens = cfg.bucket_max) ∧
    ((updateItem cfg it now).num_tokens < cfg.bucket_max →
      alookup qid (sweepBucket cfg bucket now) =
        some (updateItem cfg it now)) ∧
    (0 < cfg.fill_rate →
      (cfg.bucket_max - it.num_tokens) / cfg.fill_rate ≤
        now - it.last_access →
      alookup qid (sweepBucket cfg bucket now) = none) := by
  have hlk := alookup_sweepBucket cfg bucket now qid it hnd hqid
  have hle := updateItem_tokens_le cfg it now
  refine ⟨?_, ?_, ?_, ?_⟩
  · rw [alookup_sweepPass, hrid]
    rfl
  · rw [hlk]
    by_cases hc : (updateItem cfg it now).num_tokens < cfg.bucket_max
    · rw [if_pos hc]
      exact iff_of_false (Option.some_ne_none _) (ne_of_lt hc)
    · rw [if_neg hc]
      exact iff_of_true rfl (le_antisymm hle (not_lt.mp hc))
  · intro hc
    rw [hlk, if_pos hc]
  · intro hfr hge
    have h1 : cfg.bucket_max - it.num_tokens ≤
        (now - it.last_access) * cfg.fill_rate := (div_le_iff₀ hfr).mp hge
    have hcomm : cfg.fill_rate * (now - it.last_access) =
        (now - it.last_access) * cfg.fill_rate := mul_comm _ _
    have h2 : cfg.bucket_max ≤ it.num_tokens +
        max 0 (cfg.fill_rate * (now - it.last_access)) := by
      have hmx := le_max_right (0 : ℚ)
        (cfg.fill_rate * (now - it.last_access))
      linarith
    have h3 : (updateItem cfg it now).num_tokens = cfg.bucket_max :=
      min_eq_left h2
    have hnlt : ¬ ((updateItem cfg it now).num_tokens < cfg.bucket_max) := by
      rw [h3]
      exact lt_irrefl _
    rw [hlk, if_neg hnlt]

/-- C6 witness: with config `(1, 2, 2)`, an empty bucket last touched at
`t = 0` is evicted by a sweep at `t = 5` (which is past the refill horizon
`(2 - 0) / 1 = 2`). -/
theorem sweep_removal_iff_full_witness :
    alookup "q" (sweepBucket ⟨1, 2, 2⟩ [("q", ⟨0, 0⟩)] 5) = none :=
  (sweep_removal_iff_full ⟨1, 2, 2⟩ [("s", [("q", ⟨0, 0⟩)])] 5 "s" "q"
      [("q", ⟨0, 0⟩)] ⟨0, 0⟩ (by simp [alookup]) (by simp)
      (by simp [alookup])).2.2.2 (by norm_num) (by norm_num)

/-- C10: a sweep removes only inner (requester-level) entries: the outer
key list of the store is identical before and after, and each outer key
still maps to its (swept, possibly empty) inner dict. -/
theorem sweep_preserves_outer_keys (cfg : Config) (store : Store) (now : ℚ) :
    (sweepPass cfg store now).map Prod.fst = store.map Prod.fst ∧
    ∀ rid, alookup rid (sweepPass cfg store now) =
      (alookup rid store).map fun b => sweepBucket cfg b now :=
  ⟨sweepPass_keys cfg store now, fun rid => alookup_sweepPass cfg store now rid⟩

/-- C1 (against the claim): after a first request for requester `"a"` and
resource `"b"`, the outer dict contains the requester `"a"` — not the
resource `"b"` — because `handle_request` passes `requester_id` as
`_consume_token`'s `resource_id` argument. -/
theorem outer_key_is_requester_not_resource :
    ((handle_request ⟨1, 2, 2⟩ [] ⟨some "a", some "b", none⟩ 0).2).map
        Prod.fst = ["a"] ∧
    alookup "b" (handle_request ⟨1, 2, 2⟩ [] ⟨some "a", some "b", none⟩ 0).2 =
      none ∧
    alookup "a" (handle_request ⟨1, 2, 2⟩ [] ⟨some "a", some "b", none⟩ 0).2 =
      some [("b", { last_access := 0, num_tokens := 1 })] := by
  have hst : (handle_request ⟨1, 2, 2⟩ [] ⟨some "a", some "b", none⟩ 0).2 =
      [("a", [("b", { last_access := 0, num_tokens := 1 })])] := by
    simp [handle_request, consumeToken, getItem, setItem, consumeItem,
      updateItem, newItem, alookup, aset]
    norm_num
  rw [hst]
  refine ⟨rfl, ?_, ?_⟩ <;> simp [alookup]

/-- C7: with `fill_rate = 1`, `bucket_max = 2` (hence `bucket_start = 2`),
three successive requests at `t = 0` for the same previously-unseen
(requester, resource) key are decided allow, allow, deny. -/
theorem scenario_a_allow_allow_deny :
    let cfg : Config := ⟨1, 2, 2⟩
    let ev : Event := ⟨some "u", some "r", none⟩
    let r1 := handle_request cfg [] ev 0
    let r2 := handle_request cfg r1.2 ev 0
    let r3 := handle_request cfg r2.2 ev 0
    (r1.1, r2.1, r3.1) =
      (.ok { allow_request := true, denial_details := none },
       .ok { allow_request := true, denial_details := none },
       .ok { allow_request := false,
             denial_details := some "No detail today!" }) := by
  have h1 : handle_request ⟨1, 2, 2⟩ [] ⟨some "u", some "r", none⟩ 0 =
      (.ok { allow_request := true, denial_details := none },
       [("u", [("r", { last_access := 0, num_tokens := 1 })])]) := by
    simp [handle_request, consumeToken, getItem, setItem, consumeItem,
      updateItem, newItem, alookup, aset]
    norm_num
  have h2 : handle_request ⟨1, 2, 2⟩
      [("u", [("r", { last_access := 0, num_tokens := 1 })])]
      ⟨some "u", some "r", none⟩ 0 =
      (.ok { allow_request := true, denial_details := none },
       [("u", [("r", { last_access := 0, num_tokens := 0 })])]) := by
    simp [handle_request, consumeToken, getItem, setItem, consumeItem,
      updateItem, newItem, alookup, aset]
  have h3 : handle_request ⟨1, 2, 2⟩
      [("u", [("r", { last_access := 0, num_tokens := 0 })])]
      ⟨some "u", some "r", none⟩ 0 =
      (.ok { allow_request := false,
             denial_details := some "No detail today!" },
       [("u", [("r", { last_access := 0, num_tokens := 0 })])]) := by
    simp [handle_request, consumeToken, getItem, setItem, consumeItem,
      updateItem, newItem, alookup, aset]
  simp only [h1, h2, h3]

end Revlimiter
